import Mathlib

/-!
# Verification of the Shopify webhook plugin core

A shallow embedding, in Lean 4, of the webhook-intake and promotion-translation
core of the `shopifyplugin` repository, together with proofs and refutations of
the specification's claims about it.

Conventions of the embedding:
* Python byte strings are `List Nat` with every element below 256.
* Python's `hashlib` / `hmac` / `base64` library calls are implemented
  concretely (FIPS 180-4 SHA-256, RFC 2104 HMAC, RFC 4648 base64).
* Decimal / float magnitudes are idealised as exact rationals `ℚ`;
  `int(...)` is truncation toward zero (`pyTrunc`).
* Timezone-aware datetimes are civil-field records converted to epoch seconds
  (`toEpochSeconds`); `timedelta(days=1)` is `+ 86400` seconds.
* Network traffic of the SKU resolvers is an explicit oracle: one list of
  pre-recorded `HttpOutcome`s per Shopify Admin endpoint, consumed one entry
  per request and threaded through every call.
* Fallible Python code (raised exceptions) returns `Except String _`.
-/

set_option maxRecDepth 100000

namespace ShopifyPlugin

/-! ## Bytes, 32-bit arithmetic -/

/-- Reduce modulo `2^32`, the word size of SHA-256 arithmetic. -/
def m32 (n : Nat) : Nat := n % 4294967296

/-- Addition modulo `2^32`. -/
def add32 (a b : Nat) : Nat := m32 (a + b)

/-- Right rotation by `n` bits of a 32-bit word `x`. -/
def rotr32 (n x : Nat) : Nat := m32 ((x >>> n) ||| (x <<< (32 - n)))

/-! ## SHA-256 (FIPS 180-4), the `hashlib.sha256` the source calls -/

/-- SHA-256 `Ch e f g`; complement is xor against the all-ones 32-bit mask. -/
def sha256Ch (e f g : Nat) : Nat := (e &&& f) ^^^ ((e ^^^ 4294967295) &&& g)

/-- SHA-256 `Maj a b c`. -/
def sha256Maj (a b c : Nat) : Nat := (a &&& b) ^^^ (a &&& c) ^^^ (b &&& c)

/-- SHA-256 big Σ₀. -/
def bSig0 (x : Nat) : Nat := rotr32 2 x ^^^ rotr32 13 x ^^^ rotr32 22 x

/-- SHA-256 big Σ₁. -/
def bSig1 (x : Nat) : Nat := rotr32 6 x ^^^ rotr32 11 x ^^^ rotr32 25 x

/-- SHA-256 small σ₀. -/
def sSig0 (x : Nat) : Nat := rotr32 7 x ^^^ rotr32 18 x ^^^ (x >>> 3)

/-- SHA-256 small σ₁. -/
def sSig1 (x : Nat) : Nat := rotr32 17 x ^^^ rotr32 19 x ^^^ (x >>> 10)

/-- The 64 SHA-256 round constants (FIPS 180-4 §4.2.2, in decimal). -/
def sha256K : List Nat :=
  [1116352408, 1899447441, 3049323471, 3921009573, 961987163,
   1508970993, 2453635748, 2870763221, 3624381080, 310598401,
   607225278, 1426881987, 1925078388, 2162078206, 2614888103,
   3248222580, 3835390401, 4022224774, 264347078, 604807628,
   770255983, 1249150122, 1555081692, 1996064986, 2554220882,
   2821834349, 2952996808, 3210313671, 3336571891, 3584528711,
   113926993, 338241895, 666307205, 773529912, 1294757372,
   1396182291, 1695183700, 1986661051, 2177026350, 2456956037,
   2730485921, 2820302411, 3259730800, 3345764771, 3516065817,
   3600352804, 4094571909, 275423344, 430227734, 506948616,
   659060556, 883997877, 958139571, 1322822218, 1537002063,
   1747873779, 1955562222, 2024104815, 2227730452, 2361852424,
   2428436474, 2756734187, 3204031479, 3329325298]

/-- The eight SHA-256 chaining words. -/
structure Sha256St where
  a : Nat
  b : Nat
  c : Nat
  d : Nat
  e : Nat
  f : Nat
  g : Nat
  h : Nat
deriving DecidableEq, Repr

/-- SHA-256 initial hash value (FIPS 180-4 §5.3.3, in decimal). -/
def sha256Init : Sha256St :=
  ⟨1779033703, 3144134277, 1013904242, 2773480762,
   1359893119, 2600822924, 528734635, 1541459225⟩

/-- Extend a 16-word block schedule by `n` further words. -/
def sha256Extend : Nat → List Nat → List Nat
  | 0, w => w
  | n + 1, w =>
    let len := w.length
    let t := add32
      (add32 (sSig1 (w.getD (len - 2) 0)) (w.getD (len - 7) 0))
      (add32 (sSig0 (w.getD (len - 15) 0)) (w.getD (len - 16) 0))
    sha256Extend n (w ++ [t])

/-- One SHA-256 compression round, consuming a `(k, w)` pair. -/
def sha256Round (st : Sha256St) (kw : Nat × Nat) : Sha256St :=
  let t1 := add32 st.h (add32 (bSig1 st.e)
    (add32 (sha256Ch st.e st.f st.g) (add32 kw.1 kw.2)))
  let t2 := add32 (bSig0 st.a) (sha256Maj st.a st.b st.c)
  ⟨add32 t1 t2, st.a, st.b, st.c, add32 st.d t1, st.e, st.f, st.g⟩

/-- Process one 16-word block. -/
def sha256Block (st : Sha256St) (block : List Nat) : Sha256St :=
  let w := sha256Extend 48 block
  let r := (sha256K.zip w).foldl sha256Round st
  ⟨add32 st.a r.a, add32 st.b r.b, add32 st.c r.c, add32 st.d r.d,
   add32 st.e r.e, add32 st.f r.f, add32 st.g r.g, add32 st.h r.h⟩

/-- Big-endian bytes of a 32-bit word. -/
def wordBytes (w : Nat) : List Nat :=
  [w / 16777216 % 256, w / 65536 % 256, w / 256 % 256, w % 256]

/-- Pack big-endian bytes into 32-bit words (input length divisible by 4). -/
def bytesToWords : List Nat → List Nat
  | b1 :: b2 :: b3 :: b4 :: rest =>
    (b1 * 16777216 + b2 * 65536 + b3 * 256 + b4) :: bytesToWords rest
  | _ => []

/-- Split a word list into 16-word blocks (padded input length is a multiple
of 16, so the final catch-all is never hit on hash input). -/
def chunk16 : List Nat → List (List Nat)
  | w1 :: w2 :: w3 :: w4 :: w5 :: w6 :: w7 :: w8 ::
      w9 :: w10 :: w11 :: w12 :: w13 :: w14 :: w15 :: w16 :: rest =>
    [w1, w2, w3, w4, w5, w6, w7, w8, w9, w10, w11, w12, w13, w14, w15, w16]
      :: chunk16 rest
  | _ => []

/-- FIPS 180-4 padding: `0x80`, zeros, then the bit length as 8 bytes. -/
def sha256Pad (msg : List Nat) : List Nat :=
  let len := msg.length
  let zeros := (64 - (len + 9) % 64) % 64
  let lenBits := len * 8
  msg ++ 128 :: List.replicate zeros 0 ++
    [lenBits / 72057594037927936 % 256, lenBits / 281474976710656 % 256,
     lenBits / 1099511627776 % 256, lenBits / 4294967296 % 256,
     lenBits / 16777216 % 256, lenBits / 65536 % 256,
     lenBits / 256 % 256, lenBits % 256]

/-- SHA-256 of a byte list, as its 32 digest bytes. -/
def sha256 (msg : List Nat) : List Nat :=
  let st := (chunk16 (bytesToWords (sha256Pad msg))).foldl sha256Block sha256Init
  wordBytes st.a ++ wordBytes st.b ++ wordBytes st.c ++ wordBytes st.d ++
    wordBytes st.e ++ wordBytes st.f ++ wordBytes st.g ++ wordBytes st.h

/-! ## HMAC-SHA256 (RFC 2104), the `hmac.new(..., hashlib.sha256)` call -/

/-- HMAC-SHA256 keyed digest of a message, 32 bytes. -/
def hmacSha256 (key msg : List Nat) : List Nat :=
  let k0 := if 64 < key.length then sha256 key else key
  let k1 := k0 ++ List.replicate (64 - k0.length) 0
  sha256 ((k1.map (· ^^^ 92)) ++ sha256 ((k1.map (· ^^^ 54)) ++ msg))

/-! ## Base64 (RFC 4648) and hex encodings -/

/-- The base64 alphabet character for a 6-bit value. -/
def b64Char (n : Nat) : Char :=
  "ABCDEFGHIJKLMNOPQRSTUVWXYZabcdefghijklmnopqrstuvwxyz0123456789+/".toList.getD n 'A'

/-- Base64-encode a byte list into its character sequence, with `=` padding. -/
def b64Chars : List Nat → List Char
  | [] => []
  | [b1] => [b64Char (b1 / 4), b64Char (b1 % 4 * 16), '=', '=']
  | [b1, b2] =>
    [b64Char (b1 / 4), b64Char (b1 % 4 * 16 + b2 / 16), b64Char (b2 % 16 * 4), '=']
  | b1 :: b2 :: b3 :: rest =>
    b64Char (b1 / 4) :: b64Char (b1 % 4 * 16 + b2 / 16) ::
      b64Char (b2 % 16 * 4 + b3 / 64) :: b64Char (b3 % 64) :: b64Chars rest

/-- `base64.b64encode(...).decode("utf-8")`. -/
def b64encode (bs : List Nat) : String := String.mk (b64Chars bs)

/-- Lowercase hex character of a value below 16. -/
def hexChar (n : Nat) : Char := "0123456789abcdef".toList.getD n '0'

/-- `hashlib.sha256(body).hexdigest()`. -/
def sha256hex (msg : List Nat) : String :=
  String.mk ((sha256 msg).flatMap (fun b => [hexChar (b / 16), hexChar (b % 16)]))

/-- Decidable equality on `Except`, needed to evaluate fallible results in
closed theorems. -/
def exceptDecEq {ε α : Type} [DecidableEq ε] [DecidableEq α] :
    (a b : Except ε α) → Decidable (a = b)
  | .ok a, .ok b =>
    if h : a = b then .isTrue (by rw [h])
    else .isFalse (fun hh => h (Except.ok.inj hh))
  | .error a, .error b =>
    if h : a = b then .isTrue (by rw [h])
    else .isFalse (fun hh => h (Except.error.inj hh))
  | .ok _, .error _ => .isFalse (fun hh => Except.noConfusion hh)
  | .error _, .ok _ => .isFalse (fun hh => Except.noConfusion hh)

instance {ε α : Type} [DecidableEq ε] [DecidableEq α] :
    DecidableEq (Except ε α) := exceptDecEq

/-! ## `middleware.verify_shopify_hmac`

Python source (`src/middleware.py`):
```
computed = base64.b64encode(
    hmac.new(secret.encode("utf-8"), request_body, hashlib.sha256).digest()
).decode("utf-8")
return hmac.compare_digest(computed, hmac_header)
```
`secret` is carried as its UTF-8 bytes. CPython's `hmac.compare_digest`
restricts its `str` overload to ASCII-only arguments: it compares two ASCII
strings in constant time but raises
`TypeError: comparing strings with non-ASCII characters is not supported`
when either contains a code point above 127. The computed digest is ASCII
base64, but `hmac_header` is the raw header's bytes latin-1-decoded by the
WSGI layer and can carry non-ASCII characters, so the raised `TypeError` is a
reachable outcome and is modelled as `.error`. -/

/-- A character CPython's `compare_digest` accepts in a `str` argument. -/
def asciiChar (c : Char) : Bool := c.toNat < 128

/-- ASCII-only test on a string, the `compare_digest` precondition. -/
def asciiOnly (s : String) : Bool := s.data.all asciiChar

/-- `middleware.verify_shopify_hmac`: `.ok` with the comparison result, or
`.error` for the `TypeError` that `compare_digest` raises on a non-ASCII
argument. -/
def verify_shopify_hmac (request_body : List Nat) (hmac_header : String)
    (secret : List Nat) : Except String Bool :=
  let computed := b64encode (hmacSha256 secret request_body)
  if asciiOnly computed && asciiOnly hmac_header then
    .ok (computed == hmac_header)
  else
    .error "TypeError: comparing strings with non-ASCII characters is not supported"

/-! ## Facts about the digest and the base64 encoding -/

/-- A SHA-256 digest has 32 bytes. -/
theorem sha256_length (msg : List Nat) : (sha256 msg).length = 32 := by
  simp [sha256, wordBytes]

/-- A SHA-256 digest is never the empty byte list. -/
theorem sha256_ne_nil (msg : List Nat) : sha256 msg ≠ [] := by
  intro h
  have := sha256_length msg
  rw [h] at this
  simp at this

/-- Every SHA-256 digest byte is below 256. -/
theorem sha256_lt (msg : List Nat) : ∀ b ∈ sha256 msg, b < 256 := by
  intro b hb
  simp only [sha256, wordBytes, List.append_assoc, List.mem_append,
    List.mem_cons, List.not_mem_nil, or_false] at hb
  rcases hb with h | h | h | h | h | h | h | h <;>
    rcases h with h | h | h | h <;> subst h <;> exact Nat.mod_lt _ (by omega)

/-- An HMAC-SHA256 digest is a SHA-256 digest, so its bytes are below 256. -/
theorem hmacSha256_lt (key msg : List Nat) : ∀ b ∈ hmacSha256 key msg, b < 256 := by
  intro b hb
  exact sha256_lt _ b hb

/-- An HMAC-SHA256 digest is never empty. -/
theorem hmacSha256_ne_nil (key msg : List Nat) : hmacSha256 key msg ≠ [] :=
  sha256_ne_nil _

/-- The base64 alphabet is injective on 6-bit values. -/
theorem b64Char_inj : ∀ x < 64, ∀ y < 64, b64Char x = b64Char y → x = y := by decide

/-- No 6-bit value encodes to the padding character. -/
theorem b64Char_ne_pad : ∀ x < 64, b64Char x ≠ '=' := by decide

/-- Base64 encoding of a non-empty byte list is non-empty. -/
theorem b64Chars_ne_nil : ∀ {l : List Nat}, l ≠ [] → b64Chars l ≠ [] := by
  intro l hl
  match l with
  | [] => exact absurd rfl hl
  | [b1] => simp [b64Chars]
  | [b1, b2] => simp [b64Chars]
  | b1 :: b2 :: b3 :: rest => simp [b64Chars]

/-- Base64 encoding is injective on byte lists. -/
theorem b64Chars_inj : ∀ (l1 l2 : List Nat), (∀ b ∈ l1, b < 256) →
    (∀ b ∈ l2, b < 256) → b64Chars l1 = b64Chars l2 → l1 = l2
  | [], [], _, _, _ => rfl
  | [], [_], _, _, h => by simp [b64Chars] at h
  | [], [_, _], _, _, h => by simp [b64Chars] at h
  | [], _ :: _ :: _ :: _, _, _, h => by simp [b64Chars] at h
  | [_], [], _, _, h => by simp [b64Chars] at h
  | [_, _], [], _, _, h => by simp [b64Chars] at h
  | _ :: _ :: _ :: _, [], _, _, h => by simp [b64Chars] at h
  | [b1], [c1], h1, h2, h => by
    simp only [b64Chars, List.cons.injEq, and_true] at h
    have hb1 : b1 < 256 := h1 b1 (by simp)
    have hc1 : c1 < 256 := h2 c1 (by simp)
    obtain ⟨hA, hB⟩ := h
    have e1 := b64Char_inj _ (by omega) _ (by omega) hA
    have e2 := b64Char_inj _ (by omega) _ (by omega) hB
    simp only [List.cons.injEq, and_true]
    omega
  | [b1], [c1, c2], h1, h2, h => by
    simp only [b64Chars, List.cons.injEq] at h
    have hc2 : c2 < 256 := h2 c2 (by simp)
    exact absurd h.2.2.1.symm (b64Char_ne_pad _ (by omega))
  | [b1], c1 :: c2 :: c3 :: crest, h1, h2, h => by
    simp only [b64Chars, List.cons.injEq] at h
    have hc2 : c2 < 256 := h2 c2 (by simp)
    have hc3 : c3 < 256 := h2 c3 (by simp)
    exact absurd h.2.2.1.symm (b64Char_ne_pad _ (by omega))
  | [b1, b2], [c1], h1, h2, h => by
    simp only [b64Chars, List.cons.injEq] at h
    have hb2 : b2 < 256 := h1 b2 (by simp)
    exact absurd h.2.2.1 (b64Char_ne_pad _ (by omega))
  | [b1, b2], [c1, c2], h1, h2, h => by
    simp only [b64Chars, List.cons.injEq, and_true] at h
    have hb1 : b1 < 256 := h1 b1 (by simp)
    have hb2 : b2 < 256 := h1 b2 (by simp)
    have hc1 : c1 < 256 := h2 c1 (by simp)
    have hc2 : c2 < 256 := h2 c2 (by simp)
    have e1 := b64Char_inj _ (by omega) _ (by omega) h.1
    have e2 := b64Char_inj _ (by omega) _ (by omega) h.2.1
    have e3 := b64Char_inj _ (by omega) _ (by omega) h.2.2
    simp only [List.cons.injEq, and_true]
    omega
  | [b1, b2], c1 :: c2 :: c3 :: crest, h1, h2, h => by
    simp only [b64Chars, List.cons.injEq] at h
    have hc3 : c3 < 256 := h2 c3 (by simp)
    exact absurd h.2.2.2.1.symm (b64Char_ne_pad _ (by omega))
  | b1 :: b2 :: b3 :: brest, [c1], h1, h2, h => by
    simp only [b64Chars, List.cons.injEq] at h
    have hb2 : b2 < 256 := h1 b2 (by simp)
    have hb3 : b3 < 256 := h1 b3 (by simp)
    exact absurd h.2.2.1 (b64Char_ne_pad _ (by omega))
  | b1 :: b2 :: b3 :: brest, [c1, c2], h1, h2, h => by
    simp only [b64Chars, List.cons.injEq] at h
    have hb3 : b3 < 256 := h1 b3 (by simp)
    exact absurd h.2.2.2.1 (b64Char_ne_pad _ (by omega))
  | b1 :: b2 :: b3 :: brest, c1 :: c2 :: c3 :: crest, h1, h2, h => by
    simp only [b64Chars, List.cons.injEq] at h
    have hb1 : b1 < 256 := h1 b1 (by simp)
    have hb2 : b2 < 256 := h1 b2 (by simp)
    have hb3 : b3 < 256 := h1 b3 (by simp)
    have hc1 : c1 < 256 := h2 c1 (by simp)
    have hc2 : c2 < 256 := h2 c2 (by simp)
    have hc3 : c3 < 256 := h2 c3 (by simp)
    have e1 := b64Char_inj _ (by omega) _ (by omega) h.1
    have e2 := b64Char_inj _ (by omega) _ (by omega) h.2.1
    have e3 := b64Char_inj _ (by omega) _ (by omega) h.2.2.1
    have e4 := b64Char_inj _ (by omega) _ (by omega) h.2.2.2.1
    have erest := b64Chars_inj brest crest
      (fun b hb => h1 b (by simp [hb])) (fun b hb => h2 b (by simp [hb]))
      h.2.2.2.2
    simp only [List.cons.injEq]
    refine ⟨by omega, by omega, by omega, erest⟩

/-- Every base64-alphabet character (and the `getD` fallback) is ASCII. -/
theorem b64Char_ascii : ∀ n : Nat, asciiChar (b64Char n) = true := by
  intro n
  rcases lt_or_ge n 64 with h | h
  · have hall : ∀ m < 64, asciiChar (b64Char m) = true := by decide
    exact hall n h
  · rw [b64Char, List.getD_eq_default]
    · decide
    · rw [show ("ABCDEFGHIJKLMNOPQRSTUVWXYZabcdefghijklmnopqrstuvwxyz0123456789+/").toList.length = 64 from by decide]
      exact h

/-- Base64 encodings consist of ASCII characters only. -/
theorem b64Chars_ascii : ∀ bs : List Nat, (b64Chars bs).all asciiChar = true
  | [] => rfl
  | [b1] => by
    simp [b64Chars, b64Char_ascii, (by decide : asciiChar '=' = true)]
  | [b1, b2] => by
    simp [b64Chars, b64Char_ascii, (by decide : asciiChar '=' = true)]
  | b1 :: b2 :: b3 :: rest => by
    simp [b64Chars, b64Char_ascii, b64Chars_ascii rest]

/-- The computed signature string always passes the ASCII check. -/
theorem b64encode_ascii (bs : List Nat) : asciiOnly (b64encode bs) = true :=
  b64Chars_ascii bs

/-- **C2 counterexample.** On the malformed signature string `"é"` — the
latin-1 decoding of header byte `0xE9` — `verify_shopify_hmac` does not return
`False`: `compare_digest` raises `TypeError`, refuting the claim's
returns-false-without-raising clause. -/
theorem verify_shopify_hmac_raises_on_non_ascii :
    verify_shopify_hmac [97] "é" [107]
      = .error "TypeError: comparing strings with non-ASCII characters is not supported" := by
  decide

/-- **C2 (amended).** For an ASCII signature string, `verify_shopify_hmac`
returns `.ok true` exactly when the signature is the base64 encoding of
HMAC-SHA256(secret, body): the empty signature and any digest-altering change
of body or secret yield `.ok false`. A signature containing a non-ASCII
character, however, makes `compare_digest` raise `TypeError` instead of
returning false. -/
theorem verify_shopify_hmac_correct (body secret : List Nat) :
    (∀ sig : String, asciiOnly sig = true →
      (verify_shopify_hmac body sig secret = .ok true ↔
        sig = b64encode (hmacSha256 secret body)))
    ∧ verify_shopify_hmac body "" secret = .ok false
    ∧ (∀ body2 secret2 : List Nat,
        hmacSha256 secret2 body2 ≠ hmacSha256 secret body →
        verify_shopify_hmac body2 (b64encode (hmacSha256 secret body)) secret2
          = .ok false)
    ∧ (∀ sig : String, asciiOnly sig = false →
        verify_shopify_hmac body sig secret
          = .error "TypeError: comparing strings with non-ASCII characters is not supported") := by
  refine ⟨fun sig hsig => ?_, ?_, fun body2 secret2 hne => ?_,
    fun sig hsig => ?_⟩
  · rw [verify_shopify_hmac]
    simp only [b64encode_ascii, hsig, Bool.and_self, if_true, Except.ok.injEq,
      beq_iff_eq]
    exact eq_comm
  · simp only [verify_shopify_hmac]
    rw [if_pos (by rw [b64encode_ascii]; decide)]
    have hne : (b64encode (hmacSha256 secret body) == "") = false := by
      rw [beq_eq_false_iff_ne]
      intro h
      have hdata : b64Chars (hmacSha256 secret body) = [] :=
        congrArg String.data h
      exact b64Chars_ne_nil (hmacSha256_ne_nil secret body) hdata
    rw [hne]
  · rw [verify_shopify_hmac]
    simp only [b64encode_ascii, Bool.and_self, if_true, Except.ok.injEq]
    rw [beq_eq_false_iff_ne]
    intro h
    have hdata : b64Chars (hmacSha256 secret2 body2)
        = b64Chars (hmacSha256 secret body) := congrArg String.data h
    exact hne (b64Chars_inj _ _ (hmacSha256_lt _ _) (hmacSha256_lt _ _) hdata)
  · simp only [verify_shopify_hmac, hsig, Bool.and_false]
    rfl

/-- Witness for C2 at concrete bytes: the digests of bodies `[97]` and `[98]`
under secret `[107]` differ and the tampered body is rejected with
`.ok false`, while the non-ASCII signature `"é"` raises. -/
theorem verify_shopify_hmac_correct_witness :
    (hmacSha256 [107] [98] ≠ hmacSha256 [107] [97]
      ∧ verify_shopify_hmac [98] (b64encode (hmacSha256 [107] [97])) [107]
          = .ok false)
    ∧ (asciiOnly "é" = false
      ∧ verify_shopify_hmac [97] "é" [107]
          = .error "TypeError: comparing strings with non-ASCII characters is not supported") :=
  ⟨⟨by decide,
    (verify_shopify_hmac_correct [97] [107]).2.2.1 [98] [107] (by decide)⟩,
   ⟨by decide,
    (verify_shopify_hmac_correct [97] [107]).2.2.2 "é" (by decide)⟩⟩

/-! ## `models.WebhookEvent` and the intake view `views.BaseShopifyWebhookView.post`

The ledger is the list of persisted `WebhookEvent` rows (uniqueness of
`webhook_id` is what the view's existence check plus the storage constraint
maintain); the dispatch queue holds `(event id, raw body)` pairs in place of
`task_actor.send(event.id, json.loads(raw_body))` — the JSON parse is a pure
function of the raw body, so the body stands for the payload. Header access
`META.get(...)` with its defaults is modelled by `Option`/`""` fields; the
Python `if not x` falsy test on a header is the `= ""` test after
`Option.getD ""`. -/

/-- `WebhookEvent.Status` choices. -/
inductive EventStatus
  | received
  | processing
  | success
  | failed
  | duplicate
deriving DecidableEq, Repr

/-- One ledger row (the fields the intake path writes). -/
structure WebhookEvent where
  webhook_id : String
  topic : String
  shop_domain : String
  status : EventStatus
  payload_hash : String
deriving DecidableEq, Repr

/-- The per-tenant configuration fields the intake path reads. -/
structure ShopifyWebhookConfig where
  webhook_secret : List Nat
  store : String
deriving DecidableEq, Repr

/-- Durable state the endpoint touches: the ledger and the dispatch queue. -/
structure WebState where
  ledger : List WebhookEvent
  queue : List (Nat × List Nat)
deriving DecidableEq, Repr

/-- One inbound webhook HTTP request, reduced to the headers and body the
view reads. -/
structure WebRequest where
  shop_domain : Option String
  hmac_header : String
  topic : String
  webhook_id : String
  body : List Nat
deriving DecidableEq, Repr

/-- `BaseShopifyWebhookView.post`. `lookupConfig` models the
`ShopifyWebhookConfig.objects.get(shopify_domain=..., is_active=True)` query
(`none` = `DoesNotExist`); `hasTaskActor` is whether the concrete view sets a
`task_actor`. Returns the HTTP status code and the successor state; a
`TypeError` raised inside `verify_shopify_hmac` propagates uncaught out of the
view — a server error with no state change, rendered here as status 500. -/
def post (lookupConfig : String → Option ShopifyWebhookConfig)
    (hasTaskActor : Bool) (allowed_topics : List String)
    (s : WebState) (req : WebRequest) : Nat × WebState :=
  let dom := req.shop_domain.getD ""
  if dom = "" then (400, s)
  else
    match lookupConfig dom with
    | none => (404, s)
    | some config =>
      match verify_shopify_hmac req.body req.hmac_header
          config.webhook_secret with
      | .error _ => (500, s)
      | .ok verified =>
        if verified = false then (401, s)
        else if req.webhook_id = "" then (400, s)
        else if allowed_topics ≠ [] ∧ req.topic ∉ allowed_topics then (400, s)
        else if s.ledger.any (fun e => e.webhook_id == req.webhook_id) then
          (200, s)
        else
          (200,
            ⟨s.ledger ++
              [⟨req.webhook_id, req.topic, dom, EventStatus.received,
                sha256hex req.body⟩],
             if hasTaskActor then s.queue ++ [(s.ledger.length, req.body)]
             else s.queue⟩)

/-- **C1.** If a delivery id is fresh and the first submission is accepted
(HTTP 200), then resubmitting the identical request returns 200 again while
changing nothing: the state after the second call is exactly the state after
the first (no new ledger row, nothing enqueued, the first row's status still
`received`), and exactly one ledger row is keyed by the delivery id. -/
theorem webhook_intake_idempotent
    (lookupConfig : String → Option ShopifyWebhookConfig)
    (hasTaskActor : Bool) (allowed_topics : List String)
    (s : WebState) (req : WebRequest)
    (hfresh : s.ledger.countP (fun e => e.webhook_id == req.webhook_id) = 0)
    (h200 : (post lookupConfig hasTaskActor allowed_topics s req).1 = 200) :
    post lookupConfig hasTaskActor allowed_topics
        (post lookupConfig hasTaskActor allowed_topics s req).2 req
      = (200, (post lookupConfig hasTaskActor allowed_topics s req).2)
    ∧ (post lookupConfig hasTaskActor allowed_topics s req).2.ledger.countP
        (fun e => e.webhook_id == req.webhook_id) = 1
    ∧ ∀ e ∈ (post lookupConfig hasTaskActor allowed_topics s req).2.ledger,
        e.webhook_id = req.webhook_id → e.status = EventStatus.received := by
  have hany : s.ledger.any (fun e => e.webhook_id == req.webhook_id) = false := by
    rw [List.any_eq_false]
    intro e he
    have := List.countP_eq_zero.mp hfresh e he
    simpa using this
  by_cases h1 : req.shop_domain.getD "" = ""
  · rw [post] at h200
    simp [h1] at h200
  rcases hc : lookupConfig (req.shop_domain.getD "") with _ | config
  · rw [post] at h200
    simp [h1, hc] at h200
  rcases hv : verify_shopify_hmac req.body req.hmac_header
      config.webhook_secret with e | verified
  · rw [post] at h200
    simp [h1, hc, hv] at h200
  rcases verified with _ | _
  · rw [post] at h200
    simp [h1, hc, hv] at h200
  by_cases hw : req.webhook_id = ""
  · rw [post] at h200
    simp [h1, hc, hv, hw] at h200
  by_cases ht : allowed_topics ≠ [] ∧ req.topic ∉ allowed_topics
  · rw [post] at h200
    simp [h1, hc, hv, hw, ht] at h200
  have hpost1 : post lookupConfig hasTaskActor allowed_topics s req
      = (200,
          ⟨s.ledger ++
            [⟨req.webhook_id, req.topic, req.shop_domain.getD "",
              EventStatus.received, sha256hex req.body⟩],
           if hasTaskActor then s.queue ++ [(s.ledger.length, req.body)]
           else s.queue⟩) := by
    rw [post]
    simp [h1, hc, hv, hw, ht, hany]
  rw [hpost1]
  refine ⟨?_, ?_, ?_⟩
  · rw [post]
    simp [h1, hc, hv, hw, ht, List.any_append]
  · simp [List.countP_append, hfresh, List.countP_cons]
  · intro e he heq
    rcases List.mem_append.mp he with hmem | hmem
    · have := List.countP_eq_zero.mp hfresh e hmem
      simp [heq] at this
    · rcases List.mem_singleton.mp hmem with rfl
      rfl

/-- Witness configuration lookup for C1: one active tenant domain with secret
bytes `[107]`. -/
def lookupConfig0 : String → Option ShopifyWebhookConfig := fun d =>
  if d = "shop.example" then some ⟨[107], "store1"⟩ else none

/-- Witness request for C1: valid signature over body `[97]` under
`lookupConfig0`'s secret, topic accepted, fresh delivery id. -/
def req0 : WebRequest :=
  ⟨some "shop.example", b64encode (hmacSha256 [107] [97]),
   "products/create", "wh1", [97]⟩

/-- Witness for C1 at a concrete fresh state and accepted request. -/
theorem webhook_intake_idempotent_witness :
    (WebState.mk [] []).ledger.countP
        (fun e => e.webhook_id == req0.webhook_id) = 0
    ∧ (post lookupConfig0 true ["products/create"] ⟨[], []⟩ req0).1 = 200
    ∧ (post lookupConfig0 true ["products/create"]
          (post lookupConfig0 true ["products/create"] ⟨[], []⟩ req0).2 req0
        = (200, (post lookupConfig0 true ["products/create"] ⟨[], []⟩ req0).2)
      ∧ (post lookupConfig0 true ["products/create"] ⟨[], []⟩
            req0).2.ledger.countP (fun e => e.webhook_id == req0.webhook_id) = 1
      ∧ ∀ e ∈ (post lookupConfig0 true ["products/create"] ⟨[], []⟩
            req0).2.ledger,
          e.webhook_id = req0.webhook_id → e.status = EventStatus.received) :=
  ⟨by decide, by decide,
   webhook_intake_idempotent lookupConfig0 true ["products/create"] ⟨[], []⟩
     req0 (by decide) (by decide)⟩

/-! ## `utils.to_shopify_gid` and `services.promotion_sync.extract_id` -/

/-- Python `str.split("/")`: split a character list at every `'/'`, keeping
empty components. -/
def split_slash : List Char → List (List Char)
  | [] => [[]]
  | c :: rest =>
    if c = '/' then [] :: split_slash rest
    else
      match split_slash rest with
      | [] => [[c]]
      | p :: ps => (c :: p) :: ps

/-- `utils.to_shopify_gid`: the f-string `gid://shopify/{resource_type}/{numeric_id}`
(the numeric id is carried as its string form). -/
def to_shopify_gid (resource_type : String) (numeric_id : String) : String :=
  "gid://shopify/" ++ resource_type ++ "/" ++ numeric_id

/-- `promotion_sync.extract_id`: `gid_string.split("/")` then `parts[-1]`
(the split of any string is non-empty, so the `[-1]` index never fails and the
default never shows). -/
def extract_id (gid_string : String) : String :=
  String.mk ((split_slash gid_string.data).getLastD [])

/-- Splitting never yields the empty component list. -/
theorem split_slash_ne_nil : ∀ l : List Char, split_slash l ≠ []
  | [] => by simp [split_slash]
  | c :: rest => by
    rw [split_slash]
    split
    · simp
    · split <;> simp

/-- A slash-free string splits into just itself. -/
theorem split_slash_eq_self : ∀ l : List Char, '/' ∉ l → split_slash l = [l]
  | [], _ => rfl
  | c :: rest, h => by
    have hc : ¬ c = '/' := fun hc => h (by simp [hc])
    have hrest : '/' ∉ rest := fun hr => h (by simp [hr])
    rw [split_slash, if_neg hc, split_slash_eq_self rest hrest]

/-- A string containing a slash splits into at least two components. -/
theorem split_slash_two_le : ∀ l : List Char, '/' ∈ l →
    2 ≤ (split_slash l).length
  | [], h => by simp at h
  | c :: rest, h => by
    rw [split_slash]
    by_cases hc : c = '/'
    · rw [if_pos hc]
      have := split_slash_ne_nil rest
      simp only [List.length_cons]
      cases hr : split_slash rest with
      | nil => exact absurd hr this
      | cons p ps => simp
    · rw [if_neg hc]
      have hin : '/' ∈ rest := by
        rcases List.mem_cons.mp h with h0 | h0
        · exact absurd h0.symm hc
        · exact h0
      have hlen := split_slash_two_le rest hin
      cases hr : split_slash rest with
      | nil => rw [hr] at hlen; simp at hlen
      | cons p ps => rw [hr] at hlen; simpa using hlen

/-- The last component of a nonempty list ignores the default. -/
theorem getLastD_irrel {α : Type} (a : α) (l : List α) (d1 d2 : α) :
    (a :: l).getLastD d1 = (a :: l).getLastD d2 := by
  rw [List.getLastD_cons, List.getLastD_cons]

/-- The last component of a split is the suffix after the last slash. -/
theorem split_slash_append_last : ∀ (xs n : List Char), '/' ∉ n →
    (split_slash (xs ++ '/' :: n)).getLastD [] = n
  | [], n, h => by
    simp only [List.nil_append, split_slash, if_pos rfl,
      split_slash_eq_self n h, List.getLastD_cons]
    rfl
  | c :: xs, n, h => by
    rw [List.cons_append, split_slash]
    by_cases hc : c = '/'
    · rw [if_pos hc, List.getLastD_cons]
      exact split_slash_append_last xs n h
    · rw [if_neg hc]
      have hmem : '/' ∈ xs ++ '/' :: n := by simp
      have hlen := split_slash_two_le _ hmem
      cases hr : split_slash (xs ++ '/' :: n) with
      | nil => exact absurd hr (split_slash_ne_nil _)
      | cons p ps =>
        rw [hr] at hlen
        cases ps with
        | nil => simp at hlen
        | cons q qs =>
          have hrec := split_slash_append_last xs n h
          rw [hr] at hrec
          simp only [List.getLastD_cons] at hrec ⊢
          exact hrec

/-- **C10.** For every resource type and every id whose string form has no
slash, extracting the numeric id from a constructed GID returns the id:
`extract_id (to_shopify_gid t n) = n`. -/
theorem extract_id_to_shopify_gid (t n : String) (h : '/' ∉ n.data) :
    extract_id (to_shopify_gid t n) = n := by
  have hdata : (to_shopify_gid t n).data
      = (("gid://shopify/" ++ t).data) ++ '/' :: n.data := by
    simp [to_shopify_gid, String.data_append]
  rw [extract_id, hdata, split_slash_append_last _ _ h]

/-- Witness for C10 at `("Product", "12345")`. -/
theorem extract_id_to_shopify_gid_witness :
    '/' ∉ "12345".data
    ∧ extract_id (to_shopify_gid "Product" "12345") = "12345" :=
  ⟨by decide, extract_id_to_shopify_gid "Product" "12345" (by decide)⟩

/-! ## `promotion_sync` window parsing (`get_start_datetime` / `get_end_datetime`)

An aware datetime parsed by `strptime(s, "%Y-%m-%dT%H:%M:%S%z")` is a civil
field record (`DTFields`); its value as an instant is `toEpochSeconds`
(seconds since the Unix epoch, via the standard civil-date/day-count
conversion), and `timedelta(days=1)` on an aware datetime advances the
instant by exactly 86400 seconds. Well-formed date strings only — `strptime`
parse failures are outside the claims. -/

/-- Parsed fields of an ISO-8601 `%Y-%m-%dT%H:%M:%S%z` string; `tz_seconds`
is the UTC offset in seconds. -/
structure DTFields where
  year : Int
  month : Int
  day : Int
  hour : Int
  minute : Int
  second : Int
  tz_seconds : Int
deriving DecidableEq, Repr

/-- Days from 1970-01-01 of a civil date (proleptic Gregorian). -/
def daysFromCivil (y m d : Int) : Int :=
  let y2 := if m ≤ 2 then y - 1 else y
  let era := (if 0 ≤ y2 then y2 else y2 - 399) / 400
  let yoe := y2 - era * 400
  let mp := (m + 9) % 12
  let doy := (153 * mp + 2) / 5 + d - 1
  let doe := yoe * 365 + yoe / 4 - yoe / 100 + doy
  era * 146097 + doe - 719468

/-- The instant of an aware datetime, in seconds since the Unix epoch. -/
def toEpochSeconds (f : DTFields) : Int :=
  daysFromCivil f.year f.month f.day * 86400
    + f.hour * 3600 + f.minute * 60 + f.second - f.tz_seconds

/-- `DEFAULT_END_DATE = "2050-01-01T16:39:39+10:00"`, parsed. -/
def DEFAULT_END_DATE : DTFields := ⟨2050, 1, 1, 16, 39, 39, 36000⟩

/-- `promotion_sync.get_start_datetime`: parse only — no grace extension. -/
def get_start_datetime (start_date : DTFields) : Int := toEpochSeconds start_date

/-- `promotion_sync.get_end_datetime`: default to the 2050 sentinel when the
end date is absent, then add one day. -/
def get_end_datetime (end_date : Option DTFields) : Int :=
  toEpochSeconds (end_date.getD DEFAULT_END_DATE) + 86400

/-- Modelled from the spec: the claim's start bound — "both bounds get a
one-interval grace extension" — would be the parsed start plus one day. For
comparison with `get_start_datetime`. -/
def claimed_start_bound (f : DTFields) : Int := toEpochSeconds f + 86400

/-- **C8 counterexample.** On 2024-01-01T00:00:00+00:00 the code's start bound
is the parsed instant itself, not the claim's one-day-extended instant. -/
theorem get_start_datetime_no_grace :
    get_start_datetime ⟨2024, 1, 1, 0, 0, 0, 0⟩
      ≠ claimed_start_bound ⟨2024, 1, 1, 0, 0, 0, 0⟩ := by decide

/-- **C8 (amended).** A missing end date defaults to the far-future sentinel
2050-01-01T16:39:39+10:00 (epoch second 2524631979) and the end bound — only
the end bound — is extended by one day; the start bound is the parsed instant
with no grace extension. -/
theorem promotion_window_bounds :
    get_end_datetime none = 2524631979 + 86400
    ∧ (∀ f, get_end_datetime (some f) = toEpochSeconds f + 86400)
    ∧ (∀ f, get_start_datetime f = toEpochSeconds f) :=
  ⟨by decide, fun _ => rfl, fun _ => rfl⟩

/-! ## `promotion_sync.compute_evaluate_priority`

The discount magnitude reaches the function as a string/`Decimal`/float,
idealised here as an exact rational; Python's `int(...)` conversion is
truncation toward zero (`pyTrunc`). The only exception the `try` block can see
in this domain is division by zero, caught and mapped to the sentinel 32767;
the unknown-type fallthrough branch divides exactly as the fixed-amount branch
does. The external enum values `DiscountType.PERCENT_OFF.value` /
`DiscountType.VALUE_OFF.value` are opaque distinct strings (the spec's §8
scenario names the former `percent-off`). -/

/-- `DiscountType.PERCENT_OFF.value` stand-in. -/
def DiscountTypePercentOff : String := "percent-off"

/-- `DiscountType.VALUE_OFF.value` stand-in. -/
def DiscountTypeValueOff : String := "value-off"

/-- Python `int(q)`: truncation toward zero. -/
def pyTrunc (q : ℚ) : ℤ := if q < 0 then -⌊-q⌋ else ⌊q⌋

/-- `promotion_sync.compute_evaluate_priority`. -/
def compute_evaluate_priority (discount_type : String) (discount_value : ℚ) :
    ℤ :=
  if discount_type = DiscountTypePercentOff then
    max 0 (100 - pyTrunc discount_value)
  else if discount_value = 0 then 32767
  else pyTrunc (10000 / discount_value)

/-- Modelled from the spec: the claim's stated priority formula,
`max(0, 100 − p)` for percentage and `floor(10000 / a)` for fixed amounts,
over exact rationals. For comparison with `compute_evaluate_priority`. -/
def claimed_evaluate_priority (discount_type : String) (discount_value : ℚ) :
    ℚ :=
  if discount_type = DiscountTypePercentOff then max 0 (100 - discount_value)
  else if discount_value = 0 then 32767
  else (⌊(10000 / discount_value : ℚ)⌋ : ℚ)

/-- Truncation toward zero agrees with the integer cast. -/
theorem pyTrunc_intCast (p : ℤ) : pyTrunc (p : ℚ) = p := by
  rw [pyTrunc]
  split
  · rw [← Int.cast_neg, Int.floor_intCast]
    ring
  · exact Int.floor_intCast p

/-- Truncation toward zero is monotone. -/
theorem pyTrunc_mono {q1 q2 : ℚ} (h : q1 ≤ q2) : pyTrunc q1 ≤ pyTrunc q2 := by
  rw [pyTrunc, pyTrunc]
  by_cases h1 : q1 < 0
  · by_cases h2 : q2 < 0
    · rw [if_pos h1, if_pos h2]
      have : ⌊-q2⌋ ≤ ⌊-q1⌋ := Int.floor_mono (by linarith)
      omega
    · rw [if_pos h1, if_neg h2]
      have ha : (0 : ℤ) ≤ ⌊-q1⌋ := Int.floor_nonneg.mpr (by linarith)
      have hb : (0 : ℤ) ≤ ⌊q2⌋ := Int.floor_nonneg.mpr (le_of_not_lt h2)
      omega
  · by_cases h2 : q2 < 0
    · exact absurd (lt_of_le_of_lt h h2) h1
    · rw [if_neg h1, if_neg h2]
      exact Int.floor_mono h

/-- **C4 counterexample.** At the fractional percentage ½ the code computes
priority 100 (it truncates the magnitude first), not the claim's
`max(0, 100 − p) = 99.5`. -/
theorem compute_evaluate_priority_not_claimed :
    ((compute_evaluate_priority DiscountTypePercentOff (1 / 2) : ℤ) : ℚ)
      ≠ claimed_evaluate_priority DiscountTypePercentOff (1 / 2) := by
  have hf : ⌊(1 / 2 : ℚ)⌋ = 0 := by
    rw [Int.floor_eq_zero_iff]
    norm_num [Set.mem_Ico]
  have h1 : compute_evaluate_priority DiscountTypePercentOff (1 / 2) = 100 := by
    rw [compute_evaluate_priority, if_pos rfl, pyTrunc, if_neg (by norm_num),
      hf]
    decide
  have h2 : claimed_evaluate_priority DiscountTypePercentOff (1 / 2)
      = 199 / 2 := by
    rw [claimed_evaluate_priority, if_pos rfl,
      max_eq_right (by norm_num : (0 : ℚ) ≤ 100 - 1 / 2)]
    norm_num
  rw [h1, h2]
  norm_num

/-- **C4 (amended).** The priority is `max(0, 100 − trunc(p))` for percentage
discounts — which coincides with the claim's `max(0, 100 − p)` on integer
magnitudes — `trunc(10000 / a)` for nonzero fixed amounts (`floor` whenever
`a > 0`, as the claim states it), the sentinel 32767 at amount zero, and is
total; percentage priority is non-increasing in the percentage. -/
theorem compute_evaluate_priority_behaviour :
    (∀ a : ℚ, 0 < a →
      compute_evaluate_priority DiscountTypeValueOff a = ⌊(10000 / a : ℚ)⌋)
    ∧ compute_evaluate_priority DiscountTypeValueOff 0 = 32767
    ∧ (∀ p : ℤ, compute_evaluate_priority DiscountTypePercentOff (p : ℚ)
        = max 0 (100 - p))
    ∧ (∀ p1 p2 : ℚ, p1 ≤ p2 →
        compute_evaluate_priority DiscountTypePercentOff p2
          ≤ compute_evaluate_priority DiscountTypePercentOff p1) := by
  refine ⟨fun a ha => ?_, by decide, fun p => ?_, fun p1 p2 h => ?_⟩
  · have hne : ¬ (a = 0) := ne_of_gt ha
    have hpos : 0 < (10000 : ℚ) / a := by positivity
    rw [compute_evaluate_priority, if_neg (by decide), if_neg hne, pyTrunc,
      if_neg (by linarith)]
  · rw [compute_evaluate_priority, if_pos rfl, pyTrunc_intCast]
  · rw [compute_evaluate_priority, compute_evaluate_priority, if_pos rfl,
      if_pos rfl]
    have := pyTrunc_mono h
    omega

/-- Witness for C4 at concrete magnitudes: amount 4 gives priority 2500 via
the floor formula, and percentages 10 ≤ 50 give priorities 50 ≤ 90. -/
theorem compute_evaluate_priority_behaviour_witness :
    (0 : ℚ) < 4
    ∧ compute_evaluate_priority DiscountTypeValueOff 4 = ⌊(10000 / 4 : ℚ)⌋
    ∧ compute_evaluate_priority DiscountTypePercentOff 10 = max 0 (100 - 10)
    ∧ ((10 : ℚ) ≤ 50
      ∧ compute_evaluate_priority DiscountTypePercentOff 50
          ≤ compute_evaluate_priority DiscountTypePercentOff 10) :=
  ⟨by norm_num,
   compute_evaluate_priority_behaviour.1 4 (by norm_num),
   by have := compute_evaluate_priority_behaviour.2.2.1 10; exact_mod_cast this,
   by norm_num,
   compute_evaluate_priority_behaviour.2.2.2 10 50 (by norm_num)⟩

/-! ## SKU resolution over the Shopify Admin API

Each resolver runs a Python `while` loop: pop the head identifier, issue one
HTTP GET, and react to the outcome. The network is an oracle list of
pre-recorded outcomes consumed one per request and threaded through (and out
of) every call; exhausting the oracle with identifiers still queued — the
situation where the real loop would simply keep issuing requests — surfaces
as the artificial `"no recorded response"` error, which every theorem below
avoids by supplying enough outcomes. A 200 body is the already-decoded JSON
payload of interest (`response_dict["product"]["variants"]`, etc.);
`time.sleep`, logging and the Slack alert have no effect on the returned
value and are dropped. -/

/-- One entry of a Python `skus` list: a barcode string or `None`. -/
abbrev Sku := Option String

/-- Python truthiness of a barcode value: `None` and `""` are falsy. -/
def truthy : Option String → Bool
  | none => false
  | some s => !(s == "")

/-- A Shopify variant, reduced to the one field the resolvers read. -/
structure PyVariant where
  barcode : Option String
deriving DecidableEq, Repr

/-- Outcome of one `requests.get`: a status code with decoded body, or a
raised transport exception. -/
inductive HttpOutcome (β : Type)
  | resp (status : Nat) (body : β)
  | exn (message : String)
deriving DecidableEq, Repr

/-- The pre-recorded response streams of the three Admin-API endpoints:
collection→products listings, product→variants fetches, and single-variant
fetches. -/
structure Net where
  collections : List (HttpOutcome (List String))
  products : List (HttpOutcome (List PyVariant))
  variants : List (HttpOutcome PyVariant)
deriving DecidableEq, Repr

/-- Loop of `promotion_sync.get_products_sku`: on 429 push the popped id back
to the front and retry, on other non-200 drop it and continue, on 200 append
every truthy variant barcode, on a transport exception re-raise. -/
def get_products_sku_go : List String → List (HttpOutcome (List PyVariant)) →
    List Sku → Except String (List Sku) × List (HttpOutcome (List PyVariant))
  | [], rs, skus => (.ok skus, rs)
  | _ :: _, [], _ => (.error "no recorded response", [])
  | pid :: rest, r :: rs, skus =>
    match r with
    | .exn e =>
      (.error ("error in standard shopify promotion import while fetching skus in products - " ++ e), rs)
    | .resp status body =>
      if status = 429 then get_products_sku_go (pid :: rest) rs skus
      else if status ≠ 200 then get_products_sku_go rest rs skus
      else get_products_sku_go rest rs (skus ++ body.filterMap fun v =>
        if truthy v.barcode then some v.barcode else none)

/-- `promotion_sync.get_products_sku` (initial accumulator empty). -/
def get_products_sku (product_ids : List String)
    (responses : List (HttpOutcome (List PyVariant))) :
    Except String (List Sku) × List (HttpOutcome (List PyVariant)) :=
  get_products_sku_go product_ids responses []

/-- Loop of `promotion_sync.get_sku_from_variants`: same queue discipline, but
a 200 response appends `variant.get("barcode", None)` unconditionally. -/
def get_sku_from_variants_go : List String → List (HttpOutcome PyVariant) →
    List Sku → Except String (List Sku) × List (HttpOutcome PyVariant)
  | [], rs, skus => (.ok skus, rs)
  | _ :: _, [], _ => (.error "no recorded response", [])
  | vid :: rest, r :: rs, skus =>
    match r with
    | .exn e =>
      (.error ("error in standard shopify promotion import while fetching products in collection - " ++ e), rs)
    | .resp status body =>
      if status = 429 then get_sku_from_variants_go (vid :: rest) rs skus
      else if status ≠ 200 then get_sku_from_variants_go rest rs skus
      else get_sku_from_variants_go rest rs (skus ++ [body.barcode])

/-- `promotion_sync.get_sku_from_variants`. -/
def get_sku_from_variants (variant_ids : List String)
    (responses : List (HttpOutcome PyVariant)) :
    Except String (List Sku) × List (HttpOutcome PyVariant) :=
  get_sku_from_variants_go variant_ids responses []

/-- Loop of `promotion_sync.get_products_from_collections`: per 200 listing,
feed the listed product ids through `get_products_sku` (whose loop drains the
shared `product_ids` accumulator each round) and append the resulting skus
(`str` applied to an already-string sku is the identity); an exception raised
by the nested call is caught and re-raised with this function's message. -/
def get_products_from_collections_go : List String →
    List (HttpOutcome (List String)) → List (HttpOutcome (List PyVariant)) →
    List Sku → Except String (List Sku) ×
      (List (HttpOutcome (List String)) × List (HttpOutcome (List PyVariant)))
  | [], cs, ps, skus => (.ok skus, (cs, ps))
  | _ :: _, [], ps, _ => (.error "no recorded response", ([], ps))
  | cid :: rest, r :: rs, ps, skus =>
    match r with
    | .exn e =>
      (.error ("error in standard shopify promotion import while fetching products in collection - " ++ e), (rs, ps))
    | .resp status body =>
      if status = 429 then get_products_from_collections_go (cid :: rest) rs ps skus
      else if status ≠ 200 then get_products_from_collections_go rest rs ps skus
      else
        match get_products_sku_go body ps [] with
        | (.error e, ps') =>
          (.error ("error in standard shopify promotion import while fetching products in collection - " ++ e), (rs, ps'))
        | (.ok newSkus, ps') =>
          get_products_from_collections_go rest rs ps' (skus ++ newSkus)

/-- `promotion_sync.get_products_from_collections`. -/
def get_products_from_collections (collection_ids : List String)
    (collectionResponses : List (HttpOutcome (List String)))
    (productResponses : List (HttpOutcome (List PyVariant))) :
    Except String (List Sku) ×
      (List (HttpOutcome (List String)) × List (HttpOutcome (List PyVariant))) :=
  get_products_from_collections_go collection_ids collectionResponses
    productResponses []

/-! ## `promotion_sync.resolve_skus_from_edges` and `resolve_entitled_skus` -/

/-- One GraphQL edge, reduced to its node's GID. -/
structure EdgeNode where
  id : String
deriving DecidableEq, Repr

/-- A GraphQL `edges` block. -/
structure EdgeList where
  edges : List EdgeNode
deriving DecidableEq, Repr

/-- A `customerGets.items` / `customerBuys.items` block: each source kind is
either absent (`None` in the payload) or an edge list. -/
structure CustomerItems where
  collections : Option EdgeList
  products : Option EdgeList
  productVariants : Option EdgeList
deriving DecidableEq, Repr

/-- `edge.get("edges", []) if edge else []`. -/
def edgesOf : Option EdgeList → List EdgeNode
  | some e => e.edges
  | none => []

/-- `promotion_sync.resolve_skus_from_edges`: collections first, then
products, then variants; the first non-empty edge list wins. -/
def resolve_skus_from_edges (customer_data_items : CustomerItems) (net : Net) :
    Except String (List Sku) × Net :=
  let collections := edgesOf customer_data_items.collections
  let products := edgesOf customer_data_items.products
  let variants := edgesOf customer_data_items.productVariants
  if collections ≠ [] then
    let r := get_products_from_collections
      (collections.map fun c => extract_id c.id) net.collections net.products
    (r.1, ⟨r.2.1, r.2.2, net.variants⟩)
  else if products ≠ [] then
    let r := get_products_sku (products.map fun p => extract_id p.id)
      net.products
    (r.1, ⟨net.collections, r.2, net.variants⟩)
  else if variants ≠ [] then
    let r := get_sku_from_variants (variants.map fun v => extract_id v.id)
      net.variants
    (r.1, ⟨net.collections, net.products, r.2⟩)
  else (.error "Promo: entitled/requisite items not found", net)

/-- A Shopify price rule (REST webhook payload), reduced to the fields the
promotion builders read; the discount magnitude is an exact rational. -/
structure PriceRule where
  id : String
  title : String
  target_type : String
  target_selection : String
  value_type : String
  value : ℚ
  starts_at : DTFields
  ends_at : Option DTFields
  once_per_customer : Bool
  allocation_method : String
  entitled_product_ids : List String
  entitled_variant_ids : List String
  entitled_collection_ids : List String
  prerequisite_subtotal_range : Option ℚ
deriving DecidableEq, Repr

/-- `promotion_sync.resolve_entitled_skus`: products first, then variants,
then collections; the first non-empty id list wins; all three empty raises
`ValueError`. -/
def resolve_entitled_skus (price_rule : PriceRule) (net : Net) :
    Except String (List Sku) × Net :=
  if price_rule.entitled_product_ids ≠ [] then
    let r := get_products_sku price_rule.entitled_product_ids net.products
    (r.1, ⟨net.collections, r.2, net.variants⟩)
  else if price_rule.entitled_variant_ids ≠ [] then
    let r := get_sku_from_variants price_rule.entitled_variant_ids net.variants
    (r.1, ⟨net.collections, net.products, r.2⟩)
  else if price_rule.entitled_collection_ids ≠ [] then
    let r := get_products_from_collections price_rule.entitled_collection_ids
      net.collections net.products
    (r.1, ⟨r.2.1, r.2.2, net.variants⟩)
  else
    (.error "Price rule has no entitled items (products, variants, or collections)", net)

/-! ## Promotion objects and the webhook promotion builders

The `mishipay_items.mpay_promo` objects and enum values live outside this
repository; the structures below carry the fields `build_easy_promotion`
assigns, and the enum `.value` constants are opaque distinct strings. The
external `get_rounded_value(x, 2)` is modelled from the spec: "Discount
magnitudes are parsed as decimals and rounded to two fractional digits." -/

/-- A promotion eligibility node. -/
structure PromoNode where
  node_type : String
  node_id : Option String
deriving DecidableEq, Repr

/-- A promotion group. -/
structure PromoGroup where
  name : String
  qty_or_value_min : ℚ
  qty_or_value_max : Option ℚ
  nodes : List PromoNode
deriving DecidableEq, Repr

/-- `NodeType.ITEM.value` stand-in. -/
def NodeTypeItem : String := "item"

/-- `PromoFamily.EASY.value` (`'e'` per the source docstring). -/
def PromoFamilyEasy : String := "e"

/-- Remaining enum `.value` stand-ins assigned by the easy builder. -/
def AvailabilityAll : String := "availability-all"

/-- `DiscountOn.FP.value` stand-in. -/
def DiscountOnFP : String := "fp"

/-- `DiscountTypeStrategy.ALL_ITEMS.value` stand-in. -/
def StrategyAllItems : String := "all-items"

/-- `DiscountTypeStrategy.EACH_ITEM.value` stand-in. -/
def StrategyEachItem : String := "each-item"

/-- `GroupItemSelectionCriteria.LEAST_EXPENSIVE.value` stand-in. -/
def CriteriaLeastExpensive : String := "least-expensive"

/-- `PromoEvaluateCriteria.PRIORITY.value` stand-in. -/
def EvaluateCriteriaPriority : String := "priority"

/-- The canonical promotion object (fields the easy builder assigns). -/
structure Promotion where
  retailer : String
  stores : List String
  promo_id : String
  family : String
  layer : String
  date_start : Int
  date_end : Int
  availability : String
  discount_value_on : String
  max_application_limit : Nat
  discount_type_strategy : String
  discounted_group_item_selection_criteria : String
  evaluate_criteria : String
  is_active : Bool
  title : String
  description : String
  discount_type : String
  discount_value : ℚ
  evaluate_priority : ℤ
  groups : List PromoGroup
deriving DecidableEq, Repr

/-- Modelled from the spec: the external `get_rounded_value(x, 2)` — round to
two fractional digits. -/
def get_rounded_value (q : ℚ) : ℚ := (round (q * 100) : ℚ) / 100

/-- `promotion_sync.is_promotion_active` at current instant `now`. -/
def is_promotion_active (start_date end_date now : Int) : Bool :=
  if start_date ≤ now ∧ now ≤ end_date then true else false

/-- The configuration fields the webhook builders read: the store id and the
optional `extra_data["promo_retailer"]`. -/
structure PromoConfig where
  store_id : String
  promo_retailer : Option String
deriving DecidableEq, Repr

/-- `promotion_sync.build_promo_groups`: a single group named after the rule
id, skipping falsy skus; callers pass minimum 1. -/
def build_promo_groups (promo_id : String) (resolved_skus : List Sku)
    (qty_or_value_min : ℚ) : List PromoGroup :=
  [⟨promo_id, qty_or_value_min, none,
    resolved_skus.filterMap fun sku =>
      if truthy sku then some ⟨NodeTypeItem, sku⟩ else none⟩]

/-- `promotion_sync.build_easy_promotion`, against the network oracle; `now`
is the current instant `is_promotion_active` compares against. Raised
exceptions (`ValueError` on an unknown `value_type`, resolution failures)
are `.error`; note the unknown-`value_type` check precedes resolution, and an
empty resolved sku list flows straight into `build_promo_groups`. -/
def build_easy_promotion (price_rule : PriceRule) (config : PromoConfig)
    (now : Int) (net : Net) : Except String Promotion × Net :=
  let retailer := config.promo_retailer.getD config.store_id
  let date_start := get_start_datetime price_rule.starts_at
  let date_end := get_end_datetime price_rule.ends_at
  let maxApp : Nat := if price_rule.once_per_customer then 1 else 65535
  let strategy :=
    if price_rule.allocation_method = "across" then StrategyAllItems
    else if price_rule.allocation_method = "each" then StrategyEachItem
    else StrategyAllItems
  let discount_value := get_rounded_value |price_rule.value|
  if price_rule.value_type = "percentage" ∨
      price_rule.value_type = "fixed_amount" then
    let discount_type :=
      if price_rule.value_type = "percentage" then DiscountTypePercentOff
      else DiscountTypeValueOff
    match resolve_entitled_skus price_rule net with
    | (.error e, net') => (.error e, net')
    | (.ok skus, net') =>
      (.ok ⟨retailer, [config.store_id], price_rule.id, PromoFamilyEasy, "1",
        date_start, date_end, AvailabilityAll, DiscountOnFP, maxApp, strategy,
        CriteriaLeastExpensive, EvaluateCriteriaPriority,
        is_promotion_active date_start date_end now, price_rule.title,
        price_rule.title, discount_type, discount_value,
        compute_evaluate_priority discount_type discount_value,
        build_promo_groups price_rule.id skus 1⟩, net')
  else
    (.error ("Unknown discount value_type: " ++ price_rule.value_type), net)

/-! ## Claims about SKU resolution and the promotion builder -/

/-- **C5.** Queue discipline of SKU resolution: a 429 outcome re-processes the
identical queue (the popped identifier went back to the front, so the queue
length after the retry cycle is unchanged); any other non-200 outcome drops
exactly the popped identifier and continues; a transport exception returns an
error outright — discarding the skus accumulated so far — and a promotion
build whose first product fetch raises never yields a promotion. -/
theorem sku_resolution_skip_vs_abort :
    (∀ (pid : String) (rest : List String) (b : List PyVariant)
        (rs : List (HttpOutcome (List PyVariant))) (skus : List Sku),
      get_products_sku_go (pid :: rest) (.resp 429 b :: rs) skus
        = get_products_sku_go (pid :: rest) rs skus)
    ∧ (∀ (pid : String) (rest : List String) (status : Nat)
        (b : List PyVariant) (rs : List (HttpOutcome (List PyVariant)))
        (skus : List Sku), status ≠ 429 → status ≠ 200 →
      get_products_sku_go (pid :: rest) (.resp status b :: rs) skus
        = get_products_sku_go rest rs skus)
    ∧ (∀ (pid : String) (rest : List String) (msg : String)
        (rs : List (HttpOutcome (List PyVariant))) (skus : List Sku),
      get_products_sku_go (pid :: rest) (.exn msg :: rs) skus
        = (.error ("error in standard shopify promotion import while fetching skus in products - " ++ msg), rs))
    ∧ (∀ (price_rule : PriceRule) (config : PromoConfig) (now : Int)
        (net : Net) (msg : String)
        (rs : List (HttpOutcome (List PyVariant))),
      price_rule.entitled_product_ids ≠ [] →
      net.products = .exn msg :: rs →
      (build_easy_promotion price_rule config now net).1.isOk = false) := by
  refine ⟨fun pid rest b rs skus => by simp [get_products_sku_go],
    fun pid rest status b rs skus h1 h2 => by
      simp [get_products_sku_go, h1, h2],
    fun pid rest msg rs skus => by simp [get_products_sku_go],
    fun pr cfg now net msg rs hne hnet => ?_⟩
  rcases hpid : pr.entitled_product_ids with _ | ⟨p, ps⟩
  · exact absurd hpid hne
  have hres : resolve_entitled_skus pr net
      = (.error ("error in standard shopify promotion import while fetching skus in products - " ++ msg),
         ⟨net.collections, rs, net.variants⟩) := by
    simp only [resolve_entitled_skus, get_products_sku, hpid, hnet,
      get_products_sku_go]
    simp
  by_cases hvt : pr.value_type = "percentage" ∨ pr.value_type = "fixed_amount"
  · simp [build_easy_promotion, hvt, hres, Except.isOk, Except.toBool]
  · simp [build_easy_promotion, hvt, Except.isOk, Except.toBool]

/-- Witness price rule for C5/C3-style builder claims: an entitled-product
percentage rule. -/
def prW : PriceRule :=
  ⟨"777", "Ten off", "line_item", "entitled", "percentage", 10,
   ⟨2025, 1, 1, 0, 0, 0, 0⟩, none, false, "across", ["111"], [], [], none⟩

/-- Witness promotion-builder config. -/
def cfgW : PromoConfig := ⟨"store1", none⟩

/-- Witness network for C5: the first product fetch raises a transport
exception. -/
def netExn : Net := ⟨[], [.exn "boom"], []⟩

/-- Witness for C5 at concrete outcomes: a 500 outcome drops the identifier,
and a build over a raising transport aborts with no promotion. -/
theorem sku_resolution_skip_vs_abort_witness :
    ((500 : Nat) ≠ 429 ∧ (500 : Nat) ≠ 200
      ∧ get_products_sku_go ["p1"] [.resp 500 []] []
          = get_products_sku_go [] [] [])
    ∧ (prW.entitled_product_ids ≠ []
      ∧ netExn.products = .exn "boom" :: []
      ∧ (build_easy_promotion prW cfgW 0 netExn).1.isOk = false) :=
  ⟨⟨by decide, by decide,
    sku_resolution_skip_vs_abort.2.1 "p1" [] 500 [] [] [] (by decide)
      (by decide)⟩,
   ⟨by decide, rfl,
    sku_resolution_skip_vs_abort.2.2.2 prW cfgW 0 netExn "boom" [] (by decide)
      rfl⟩⟩

/-- An edges descriptor offering both a collection and a product source, for
the C6 counterexample. -/
def itemsCx : CustomerItems :=
  ⟨some ⟨[⟨"gid://shopify/Collection/9"⟩]⟩,
   some ⟨[⟨"gid://shopify/Product/7"⟩]⟩, none⟩

/-- Witness network for the C6 counterexample: the collection lists no
products while the product itself has a barcoded variant, so the two sources
resolve to visibly different sku lists. -/
def netCx : Net := ⟨[.resp 200 []], [.resp 200 [⟨some "B1"⟩]], []⟩

/-- The C6 counterexample theorem: the edges resolver returns the collection
resolution (empty) and not the product resolution (`["B1"]`). -/
theorem resolve_skus_from_edges_not_product_first :
    (resolve_skus_from_edges itemsCx netCx).1 = .ok []
    ∧ (get_products_sku ["7"] netCx.products).1 = .ok [some "B1"]
    ∧ (resolve_skus_from_edges itemsCx netCx).1
        ≠ (get_products_sku ["7"] netCx.products).1 :=
  ⟨by decide, by decide, by decide⟩

/-- **C6 (amended).** Exactly one resolution call is made, on the first
non-empty source — in the flat price-rule format tried in the order
product > variant > collection, but in the GraphQL edges format in the order
collection > product > variant; with no source at all, both formats raise. -/
theorem entitlement_source_priority :
    (∀ (pr : PriceRule) (net : Net), pr.entitled_product_ids ≠ [] →
      resolve_entitled_skus pr net
        = ((get_products_sku pr.entitled_product_ids net.products).1,
           ⟨net.collections,
            (get_products_sku pr.entitled_product_ids net.products).2,
            net.variants⟩))
    ∧ (∀ (pr : PriceRule) (net : Net), pr.entitled_product_ids = [] →
        pr.entitled_variant_ids ≠ [] →
      resolve_entitled_skus pr net
        = ((get_sku_from_variants pr.entitled_variant_ids net.variants).1,
           ⟨net.collections, net.products,
            (get_sku_from_variants pr.entitled_variant_ids net.variants).2⟩))
    ∧ (∀ (pr : PriceRule) (net : Net), pr.entitled_product_ids = [] →
        pr.entitled_variant_ids = [] → pr.entitled_collection_ids ≠ [] →
      resolve_entitled_skus pr net
        = ((get_products_from_collections pr.entitled_collection_ids
              net.collections net.products).1,
           ⟨(get_products_from_collections pr.entitled_collection_ids
              net.collections net.products).2.1,
            (get_products_from_collections pr.entitled_collection_ids
              net.collections net.products).2.2,
            net.variants⟩))
    ∧ (∀ (pr : PriceRule) (net : Net), pr.entitled_product_ids = [] →
        pr.entitled_variant_ids = [] → pr.entitled_collection_ids = [] →
      resolve_entitled_skus pr net
        = (.error "Price rule has no entitled items (products, variants, or collections)",
           net))
    ∧ (∀ (items : CustomerItems) (net : Net),
        edgesOf items.collections ≠ [] →
      resolve_skus_from_edges items net
        = ((get_products_from_collections
              ((edgesOf items.collections).map fun c => extract_id c.id)
              net.collections net.products).1,
           ⟨(get_products_from_collections
              ((edgesOf items.collections).map fun c => extract_id c.id)
              net.collections net.products).2.1,
            (get_products_from_collections
              ((edgesOf items.collections).map fun c => extract_id c.id)
              net.collections net.products).2.2,
            net.variants⟩))
    ∧ (∀ (items : CustomerItems) (net : Net),
        edgesOf items.collections = [] → edgesOf items.products ≠ [] →
      resolve_skus_from_edges items net
        = ((get_products_sku
              ((edgesOf items.products).map fun p => extract_id p.id)
              net.products).1,
           ⟨net.collections,
            (get_products_sku
              ((edgesOf items.products).map fun p => extract_id p.id)
              net.products).2,
            net.variants⟩))
    ∧ (∀ (items : CustomerItems) (net : Net),
        edgesOf items.collections = [] → edgesOf items.products = [] →
        edgesOf items.productVariants ≠ [] →
      resolve_skus_from_edges items net
        = ((get_sku_from_variants
              ((edgesOf items.productVariants).map fun v => extract_id v.id)
              net.variants).1,
           ⟨net.collections, net.products,
            (get_sku_from_variants
              ((edgesOf items.productVariants).map fun v => extract_id v.id)
              net.variants).2⟩))
    ∧ (∀ (items : CustomerItems) (net : Net),
        edgesOf items.collections = [] → edgesOf items.products = [] →
        edgesOf items.productVariants = [] →
      resolve_skus_from_edges items net
        = (.error "Promo: entitled/requisite items not found", net)) := by
  refine ⟨fun pr net h1 => ?_, fun pr net h1 h2 => ?_,
    fun pr net h1 h2 h3 => ?_, fun pr net h1 h2 h3 => ?_,
    fun items net h1 => ?_, fun items net h1 h2 => ?_,
    fun items net h1 h2 h3 => ?_, fun items net h1 h2 h3 => ?_⟩
  · simp only [resolve_entitled_skus, if_pos h1]
  · simp only [resolve_entitled_skus, h1, ne_eq, not_true_eq_false, if_false,
      if_pos h2]
  · simp only [resolve_entitled_skus, h1, h2, ne_eq, not_true_eq_false,
      if_false, if_pos h3]
  · simp only [resolve_entitled_skus, h1, h2, h3, ne_eq, not_true_eq_false,
      if_false]
  · simp only [resolve_skus_from_edges, if_pos h1]
  · simp only [resolve_skus_from_edges, h1, ne_eq, not_true_eq_false,
      if_false, if_pos h2]
  · simp only [resolve_skus_from_edges, h1, h2, ne_eq, not_true_eq_false,
      if_false, if_pos h3]
  · simp only [resolve_skus_from_edges, h1, h2, h3, ne_eq, not_true_eq_false,
      if_false]

/-- Witness for C6: on a flat rule offering products and variants the product
call is the one made; on `itemsCx`, which offers a collection and a product,
the collection call is the one made. -/
theorem entitlement_source_priority_witness :
    (prW.entitled_product_ids ≠ []
      ∧ resolve_entitled_skus prW netCx
        = ((get_products_sku prW.entitled_product_ids netCx.products).1,
           ⟨netCx.collections,
            (get_products_sku prW.entitled_product_ids netCx.products).2,
            netCx.variants⟩))
    ∧ (edgesOf itemsCx.collections ≠ []
      ∧ resolve_skus_from_edges itemsCx netCx
        = ((get_products_from_collections
              ((edgesOf itemsCx.collections).map fun c => extract_id c.id)
              netCx.collections netCx.products).1,
           ⟨(get_products_from_collections
              ((edgesOf itemsCx.collections).map fun c => extract_id c.id)
              netCx.collections netCx.products).2.1,
            (get_products_from_collections
              ((edgesOf itemsCx.collections).map fun c => extract_id c.id)
              netCx.collections netCx.products).2.2,
            netCx.variants⟩)) :=
  ⟨⟨by decide, entitlement_source_priority.1 prW netCx (by decide)⟩,
   ⟨by decide, entitlement_source_priority.2.2.2.2.1 itemsCx netCx (by decide)⟩⟩

/-- Every sku the product resolver accumulates is truthy: the 200 branch
filters out variants whose barcode is `None` or empty. -/
theorem get_products_sku_go_truthy :
    ∀ (rs : List (HttpOutcome (List PyVariant))) (ids : List String)
      (acc : List Sku), (∀ x ∈ acc, truthy x = true) →
      ∀ res rs', get_products_sku_go ids rs acc = (.ok res, rs') →
      ∀ x ∈ res, truthy x = true := by
  intro rs
  induction rs with
  | nil =>
    intro ids acc hacc res rs' h x hx
    cases ids with
    | nil =>
      simp only [get_products_sku_go, Prod.mk.injEq, Except.ok.injEq] at h
      obtain ⟨h1, h2⟩ := h
      subst h1
      exact hacc x hx
    | cons pid rest => simp [get_products_sku_go] at h
  | cons r rs ih =>
    intro ids acc hacc res rs' h x hx
    cases ids with
    | nil =>
      simp only [get_products_sku_go, Prod.mk.injEq, Except.ok.injEq] at h
      obtain ⟨h1, h2⟩ := h
      subst h1
      exact hacc x hx
    | cons pid rest =>
      cases r with
      | exn e => simp [get_products_sku_go] at h
      | resp status body =>
        by_cases h429 : status = 429
        · rw [get_products_sku_go, if_pos h429] at h
          exact ih _ _ hacc res rs' h x hx
        · by_cases h200 : status = 200
          · rw [get_products_sku_go, if_neg h429,
              if_neg (by simp [h200])] at h
            refine ih _ _ ?_ res rs' h x hx
            intro y hy
            rcases List.mem_append.mp hy with hy | hy
            · exact hacc y hy
            · rcases List.mem_filterMap.mp hy with ⟨v, _, hv⟩
              by_cases htv : truthy v.barcode = true
              · rw [if_pos htv] at hv
                cases hv
                exact htv
              · rw [if_neg htv] at hv
                cases hv
          · rw [get_products_sku_go, if_neg h429, if_pos h200] at h
            exact ih _ _ hacc res rs' h x hx

/-- Every sku the collection resolver accumulates is truthy: its entries all
come from `get_products_sku`. -/
theorem get_products_from_collections_go_truthy :
    ∀ (cs : List (HttpOutcome (List String))) (cids : List String)
      (ps : List (HttpOutcome (List PyVariant))) (acc : List Sku),
      (∀ x ∈ acc, truthy x = true) →
      ∀ res cs' ps',
        get_products_from_collections_go cids cs ps acc = (.ok res, (cs', ps')) →
      ∀ x ∈ res, truthy x = true := by
  intro cs
  induction cs with
  | nil =>
    intro cids ps acc hacc res cs' ps' h x hx
    cases cids with
    | nil =>
      simp only [get_products_from_collections_go, Prod.mk.injEq,
        Except.ok.injEq] at h
      obtain ⟨h1, h2⟩ := h
      subst h1
      exact hacc x hx
    | cons cid rest => simp [get_products_from_collections_go] at h
  | cons r rs ih =>
    intro cids ps acc hacc res cs' ps' h x hx
    cases cids with
    | nil =>
      simp only [get_products_from_collections_go, Prod.mk.injEq,
        Except.ok.injEq] at h
      obtain ⟨h1, h2⟩ := h
      subst h1
      exact hacc x hx
    | cons cid rest =>
      cases r with
      | exn e => simp [get_products_from_collections_go] at h
      | resp status body =>
        by_cases h429 : status = 429
        · rw [get_products_from_collections_go, if_pos h429] at h
          exact ih _ _ _ hacc res cs' ps' h x hx
        · by_cases h200 : status = 200
          · rw [get_products_from_collections_go, if_neg h429,
              if_neg (by simp [h200])] at h
            rcases hnested : get_products_sku_go body ps [] with ⟨exceptRes, ps2⟩
            rw [hnested] at h
            cases exceptRes with
            | error e => simp at h
            | ok newSkus =>
              refine ih _ _ _ ?_ res cs' ps' h x hx
              intro y hy
              rcases List.mem_append.mp hy with hy | hy
              · exact hacc y hy
              · exact get_products_sku_go_truthy ps body [] (by simp) newSkus
                  ps2 hnested y hy
          · rw [get_products_from_collections_go, if_neg h429, if_pos h200] at h
            exact ih _ _ _ hacc res cs' ps' h x hx

/-- **C7 (amended).** The product and collection resolvers return only truthy
(non-null, non-empty) identifiers — a variant lacking a barcode is silently
excluded there — but the variant resolver appends the raw
`variant.get("barcode", None)` unconditionally, so a missing barcode shows up
in its result as a null entry. -/
theorem resolver_barcode_filtering :
    (∀ (ids : List String) (rs : List (HttpOutcome (List PyVariant)))
        (res : List Sku) rs',
      get_products_sku ids rs = (.ok res, rs') → ∀ x ∈ res, truthy x = true)
    ∧ (∀ (cids : List String) (cs : List (HttpOutcome (List String)))
        (ps : List (HttpOutcome (List PyVariant))) (res : List Sku) cs' ps',
      get_products_from_collections cids cs ps = (.ok res, (cs', ps')) →
      ∀ x ∈ res, truthy x = true)
    ∧ (∀ (vid : String) (rest : List String) (b : PyVariant)
        (rs : List (HttpOutcome PyVariant)) (skus : List Sku),
      get_sku_from_variants_go (vid :: rest) (.resp 200 b :: rs) skus
        = get_sku_from_variants_go rest rs (skus ++ [b.barcode])) :=
  ⟨fun ids rs res rs' h =>
    get_products_sku_go_truthy rs ids [] (by simp) res rs' h,
   fun cids cs ps res cs' ps' h =>
    get_products_from_collections_go_truthy cs cids ps [] (by simp) res cs'
      ps' h,
   fun vid rest b rs skus => by simp [get_sku_from_variants_go]⟩

/-- **C7 counterexample.** The variant resolver returns a null entry for a
variant without a barcode — not every resolver result element is a non-empty
identifier. -/
theorem get_sku_from_variants_includes_missing_barcode :
    (get_sku_from_variants ["v1"] [.resp 200 ⟨none⟩]).1 = .ok [none]
    ∧ truthy none = false :=
  ⟨by decide, by decide⟩

/-- Witness for C7: a concrete product fetch whose 200 body mixes a barcoded
and a barcode-less variant resolves to just the barcoded sku, which is
truthy. -/
theorem resolver_barcode_filtering_witness :
    get_products_sku ["p"] [.resp 200 [⟨some "B"⟩, ⟨none⟩]]
        = (.ok [some "B"], [])
    ∧ ∀ x ∈ [some "B"], truthy x = true :=
  ⟨by decide,
   resolver_barcode_filtering.1 ["p"] [.resp 200 [⟨some "B"⟩, ⟨none⟩]]
     [some "B"] [] (by decide)⟩

/-- **C3 counterexample.** A rule whose descriptor resolves to an empty SKU
list (the entitled product exists but lists no variants) builds successfully:
the returned promotion's single group has no nodes — the build did not
abort. -/
def netEmpty : Net := ⟨[], [.resp 200 []], []⟩

/-- The C3 counterexample theorem: the build returns `.ok` with one group of
zero nodes. -/
theorem build_easy_promotion_empty_group_no_abort :
    ((build_easy_promotion prW cfgW 0 netEmpty).1.toOption.map
      (fun p => p.groups.map (fun g => g.nodes))) = some [[]] := by
  decide

/-- **C3 (amended).** The easy builder aborts only when the descriptor offers
no id source at all (or the discount encoding is unknown); whenever resolution
succeeds it returns a promotion whose single group holds exactly the truthy
resolved skus — in particular an empty resolution yields a group with no
nodes rather than an abort. -/
theorem build_easy_promotion_empty_resolution :
    (∀ (pr : PriceRule) (cfg : PromoConfig) (now : Int) (net : Net),
      pr.entitled_product_ids = [] → pr.entitled_variant_ids = [] →
      pr.entitled_collection_ids = [] →
      (build_easy_promotion pr cfg now net).1
          = .error "Price rule has no entitled items (products, variants, or collections)"
        ∨ (build_easy_promotion pr cfg now net).1
          = .error ("Unknown discount value_type: " ++ pr.value_type))
    ∧ (∀ (pr : PriceRule) (cfg : PromoConfig) (now : Int) (net : Net)
        (skus : List Sku) (net' : Net),
      resolve_entitled_skus pr net = (.ok skus, net') →
      (pr.value_type = "percentage" ∨ pr.value_type = "fixed_amount") →
      ∃ promo, (build_easy_promotion pr cfg now net).1 = .ok promo
        ∧ promo.groups.map (fun g => g.nodes)
          = [skus.filterMap fun sku =>
              if truthy sku then some ⟨NodeTypeItem, sku⟩ else none]) := by
  constructor
  · intro pr cfg now net h1 h2 h3
    by_cases hvt : pr.value_type = "percentage"
        ∨ pr.value_type = "fixed_amount"
    · left
      have hres : resolve_entitled_skus pr net
          = (.error "Price rule has no entitled items (products, variants, or collections)",
             net) := by
        simp only [resolve_entitled_skus, h1, h2, h3, ne_eq,
          not_true_eq_false, if_false]
      simp [build_easy_promotion, hvt, hres]
    · right
      simp [build_easy_promotion, hvt]
  · intro pr cfg now net skus net' hres hvt
    simp only [build_easy_promotion, if_pos hvt, hres]
    exact ⟨_, rfl, by simp [build_promo_groups]⟩

/-- Witness for C3 (amended): the concrete empty-resolution build of
`build_easy_promotion_empty_group_no_abort`, driven through the amended
theorem. -/
theorem build_easy_promotion_empty_resolution_witness :
    resolve_entitled_skus prW netEmpty = (.ok [], ⟨[], [], []⟩)
    ∧ (prW.value_type = "percentage" ∨ prW.value_type = "fixed_amount")
    ∧ ∃ promo, (build_easy_promotion prW cfgW 0 netEmpty).1 = .ok promo
        ∧ promo.groups.map (fun g => g.nodes)
          = [([] : List Sku).filterMap fun sku =>
              if truthy sku then some ⟨NodeTypeItem, sku⟩ else none] :=
  ⟨by decide, by decide,
   build_easy_promotion_empty_resolution.2 prW cfgW 0 netEmpty [] ⟨[], [], []⟩
     (by decide) (by decide)⟩

/-! ## `tasks.should_retry`

Exceptions are embedded as a class tag plus the optional
`exception.response.status_code` (`hasattr(exception, "response") and
exception.response is not None`). One library fact is load-bearing: in the
`requests` package every exception — `ConnectionError`, `Timeout`,
`HTTPError`, ... — derives from `RequestException`, which subclasses
`IOError`, and `IOError` is an alias of `OSError` in Python 3; so the
`isinstance(exception, (ConnectionError, Timeout, OSError))` test is true of
every `requests` exception, `HTTPError` included. -/

/-- The exception classes relevant to retry classification. -/
inductive PyExcClass
  | requestsConnectionError
  | requestsTimeout
  | requestsHTTPError
  | otherOSError
  | valueError
  | keyError
  | otherException
deriving DecidableEq, Repr

/-- An exception instance: its class and, when it carries one, the HTTP
status code of its attached response. -/
structure PyException where
  cls : PyExcClass
  response_status : Option Nat
deriving DecidableEq, Repr

/-- The `isinstance(exception, (ConnectionError, Timeout, OSError))` test:
true of every `OSError` subclass, which by the `requests` hierarchy includes
`HTTPError`. -/
def isConnTimeoutOrOSError : PyExcClass → Bool
  | .requestsConnectionError => true
  | .requestsTimeout => true
  | .requestsHTTPError => true
  | .otherOSError => true
  | .valueError => false
  | .keyError => false
  | .otherException => false

/-- `tasks.should_retry` (the retry count is ignored, as in the source). -/
def should_retry (retries_so_far : Nat) (exception : PyException) : Bool :=
  if isConnTimeoutOrOSError exception.cls then true
  else
    match exception.response_status with
    | some status =>
      if status = 429 ∨ (500 ≤ status ∧ status < 600) then true else false
    | none => false

/-- Modelled from the spec: the claim's classification — retry exactly
connection failures, timeouts, and exceptions whose response carries 429 or a
5xx status; everything else, validation errors and other HTTP 4xx included,
is permanent. For comparison with `should_retry`. -/
def claimed_should_retry (exception : PyException) : Bool :=
  if exception.cls = .requestsConnectionError
      ∨ exception.cls = .requestsTimeout then true
  else
    match exception.response_status with
    | some status =>
      if status = 429 ∨ (500 ≤ status ∧ status < 600) then true else false
    | none => false

/-- **C9 (code bug).** An `HTTPError` carrying a 404 response — exactly what
`response.raise_for_status()` raises in `handle_collection_update` — is
classified transient by the code, because `HTTPError` is an `OSError` and the
`isinstance` branch fires before the status-code branch; the function's own
docstring ("Permanent (fail): ... HTTP 4xx (except 429)") and the claim say
it must not be retried. -/
theorem should_retry_retries_http_404 :
    should_retry 0 ⟨.requestsHTTPError, some 404⟩ = true
    ∧ claimed_should_retry ⟨.requestsHTTPError, some 404⟩ = false :=
  ⟨by decide, by decide⟩

end ShopifyPlugin
